import Mathlib

/-!
Verification of `scripts/validate_yaml.py` (AISMM repository).

The script loads a YAML file, rejects tab characters, detects which of two
document shapes is present (`1.x` flat layout or `2.x` wrapper layout),
dispatches to the matching structural validator, and maps the resulting
defect list to process output and exit status.

Shallow embedding notes:
* A parsed YAML document is modelled by the inductive type `Yaml`
  (mappings, sequences, strings, integers, booleans, null).  Mapping keys
  are modelled as strings: every key the script looks up or compares is a
  string, and its documents are authored with string keys.  Floating point
  scalars are not modelled (no claim involves them).
* Python dictionaries coming out of the parser have unique keys, so a
  `Yaml.map` carries an association list and lookups take the first match.
* Python operations whose semantics the script relies on are modelled
  explicitly: truthiness (`pyTruthy`), equality (`pyEq`, where `True == 1`),
  membership `x in c` (`pyIn`, which raises `TypeError` for unhashable
  needles into dicts and for non-container right operands), `str()`
  rendering (`pyStr`), and `sorted()` (`pySorted`, which raises `TypeError`
  on lists mixing incomparable element classes, as CPython does on every
  such list of at least two elements).
* Exceptions are modelled with `Except String`: a `.error` value means the
  corresponding Python code raises and the accumulated defect list is lost.
-/

inductive Yaml : Type where
  | null : Yaml
  | bool (b : Bool) : Yaml
  | int (n : Int) : Yaml
  | str (s : String) : Yaml
  | list (xs : List Yaml) : Yaml
  | map (kvs : List (String × Yaml)) : Yaml

def Yaml.isDict : Yaml → Bool
  | .map _ => true
  | _ => false

def Yaml.isList : Yaml → Bool
  | .list _ => true
  | _ => false

def Yaml.isStr : Yaml → Bool
  | .str _ => true
  | _ => false

/-- Model of `d.get(k)` on a parsed mapping: first matching key (keys are unique in
parser output). -/
def pyGet (kvs : List (String × Yaml)) (k : String) : Option Yaml :=
  (kvs.find? (fun p => p.1 == k)).map (·.2)

/-- Model of `k in d` for a dict `d`. -/
def hasKey (kvs : List (String × Yaml)) (k : String) : Bool :=
  kvs.any (fun p => p.1 == k)

/-- Python truthiness of a parsed value. -/
def pyTruthy : Yaml → Bool
  | .null => false
  | .bool b => b
  | .int n => n != 0
  | .str s => s != ""
  | .list xs => !xs.isEmpty
  | .map kvs => !kvs.isEmpty

mutual
/-- Python `==` on parsed values: `True == 1`, `False == 0`, otherwise
structural.  Mapping comparison is positional in this model (parsed
documents are compared only through scalar and list values here). -/
def pyEq : Yaml → Yaml → Bool
  | .null, .null => true
  | .bool a, .bool b => a == b
  | .bool a, .int n => (if a then (1 : Int) else 0) == n
  | .int m, .bool b => m == (if b then (1 : Int) else 0)
  | .int m, .int n => m == n
  | .str s, .str t => s == t
  | .list xs, .list ys => pyEqList xs ys
  | .map xs, .map ys => pyEqPairs xs ys
  | _, _ => false

def pyEqList : List Yaml → List Yaml → Bool
  | [], [] => true
  | x :: xs, y :: ys => pyEq x y && pyEqList xs ys
  | _, _ => false

def pyEqPairs : List (String × Yaml) → List (String × Yaml) → Bool
  | [], [] => true
  | (k, v) :: xs, (l, w) :: ys => k == l && pyEq v w && pyEqPairs xs ys
  | _, _ => false
end

/-- Quoting as `'x'`, used by the script's f-strings. -/
def pyQuote (s : String) : String := "\x27" ++ s ++ "\x27"

mutual
/-- Python `repr()` of a parsed value (string escaping inside quotes is not
modelled; no claim depends on it). -/
def pyRepr : Yaml → String
  | .null => "None"
  | .bool b => if b then "True" else "False"
  | .int n => toString n
  | .str s => pyQuote s
  | .list xs => "[" ++ pyReprList xs ++ "]"
  | .map kvs => "\x7b" ++ pyReprPairs kvs ++ "\x7d"

def pyReprList : List Yaml → String
  | [] => ""
  | [x] => pyRepr x
  | x :: y :: xs => pyRepr x ++ ", " ++ pyReprList (y :: xs)

def pyReprPairs : List (String × Yaml) → String
  | [] => ""
  | [(k, v)] => pyQuote k ++ ": " ++ pyRepr v
  | (k, v) :: p :: ps => pyQuote k ++ ": " ++ pyRepr v ++ ", " ++ pyReprPairs (p :: ps)
end

/-- Python `str()` of a parsed value, as interpolated by f-strings. -/
def pyStr : Yaml → String
  | .str s => s
  | v => pyRepr v

def typeName : Yaml → String
  | .null => "NoneType"
  | .bool _ => "bool"
  | .int _ => "int"
  | .str _ => "str"
  | .list _ => "list"
  | .map _ => "dict"

def startsWithChars : List Char → List Char → Bool
  | [], _ => true
  | _ :: _, [] => false
  | a :: as, b :: bs => a == b && startsWithChars as bs

def occursChars (nd : List Char) : List Char → Bool
  | [] => nd.isEmpty
  | c :: cs => startsWithChars nd (c :: cs) || occursChars nd cs

/-- Substring test, used for Python `sub in s` on strings. -/
def occursWithin (hay nd : String) : Bool := occursChars nd.data hay.data

/-- Python `x in c`.  Dict membership hashes the needle (`TypeError` for
lists/dicts); list membership compares with `==`; string membership is a
substring test requiring a string needle; other right operands raise
`TypeError`. -/
def pyIn (needle container : Yaml) : Except String Bool :=
  match container with
  | .map kvs =>
      match needle with
      | .str s => .ok (hasKey kvs s)
      | .int _ => .ok false
      | .bool _ => .ok false
      | .null => .ok false
      | v => .error ("TypeError: unhashable type: " ++ pyQuote (typeName v))
  | .list xs => .ok (xs.any (fun y => pyEq needle y))
  | .str s =>
      match needle with
      | .str t => .ok (occursWithin s t)
      | v => .error ("TypeError: \x27in <string>\x27 requires string as left operand, not " ++ typeName v)
  | c => .error ("TypeError: argument of type " ++ pyQuote (typeName c) ++ " is not iterable")

def dedupFirstAux (seen : List String) : List String → List String
  | [] => []
  | k :: rest =>
    if seen.contains k then dedupFirstAux seen rest
    else k :: dedupFirstAux (k :: seen) rest

/-- Keys of a dict in insertion order (identity on the unique keys of
parser output). -/
def dedupFirst (l : List String) : List String := dedupFirstAux [] l

def numVal : Yaml → Int
  | .int n => n
  | .bool b => if b then 1 else 0
  | _ => 0

def isNum : Yaml → Bool
  | .int _ => true
  | .bool _ => true
  | _ => false

def numLe (a b : Yaml) : Prop := numVal a ≤ numVal b

def strVal : Yaml → String
  | .str s => s
  | _ => ""

def strLeY (a b : Yaml) : Prop := strVal a ≤ strVal b

instance : DecidableRel numLe := fun a b => inferInstanceAs (Decidable (numVal a ≤ numVal b))

instance : DecidableRel strLeY := fun a b => inferInstanceAs (Decidable (strVal a ≤ strVal b))

instance : IsTotal Yaml numLe := ⟨fun a b => Int.le_total (numVal a) (numVal b)⟩

instance : IsTrans Yaml numLe := ⟨fun _ _ _ h h2 => le_trans h h2⟩

/-- Python `sorted()`.  Lists of fewer than two elements involve no
comparison, so they never raise.  A list of two or more elements that mixes
numbers with strings (or contains elements of any other class) raises
`TypeError`, as CPython does on every such list; orderings between
containers are not modelled (no claim exercises them). -/
def pySorted (xs : List Yaml) : Except String (List Yaml) :=
  match xs with
  | [] => .ok []
  | [x] => .ok [x]
  | _ =>
    if xs.all isNum then .ok (xs.insertionSort numLe)
    else if xs.all Yaml.isStr then .ok (xs.insertionSort strLeY)
    else .error "TypeError: \x27<\x27 not supported between mixed element types"

def isLineBreak (c : Char) : Bool :=
  c = '\n' || c = '\r' || c = '\x0b' || c = '\x0c' ||
  c = '\x1c' || c = '\x1d' || c = '\x1e' || c = '\x85' ||
  c = '\u2028' || c = '\u2029'

/-- Python `str.splitlines()`: split on the line-break characters (with
`\r\n` as one break); a trailing segment is emitted only if nonempty. -/
def pySplitlinesAux (acc : List Char) : List Char → List String
  | [] => if acc.isEmpty then [] else [⟨acc.reverse⟩]
  | '\r' :: '\n' :: cs2 => String.mk acc.reverse :: pySplitlinesAux [] cs2
  | c :: cs =>
    if isLineBreak c then String.mk acc.reverse :: pySplitlinesAux [] cs
    else pySplitlinesAux (c :: acc) cs

def pySplitlines (s : String) : List String := pySplitlinesAux [] s.data

/-- Model of `'\t' in s`. -/
def hasTab (s : String) : Bool := s.data.contains '\t'

/-- The one-based (in Python, `i + 1`) numbers of the lines containing a tab, in order of appearance
(`[i + 1 for i, ln in enumerate(text.splitlines()) if '\t' in ln]`). -/
def tabLinesFrom (i : Nat) : List String → List Nat
  | [] => []
  | ln :: rest =>
    if hasTab ln then (i + 1) :: tabLinesFrom (i + 1) rest
    else tabLinesFrom (i + 1) rest

def tabLines (text : String) : List Nat := tabLinesFrom 0 (pySplitlines text)

def pyNatListRepr (ns : List Nat) : String :=
  "[" ++ String.intercalate ", " (ns.map toString) ++ "]"

def tabErrorMsg (ns : List Nat) : String :=
  "YAML file contains tab characters on line(s): " ++ pyNatListRepr ns ++
  ". YAML must use spaces for indentation. Replace tabs with spaces and re-run validation."

/-- Model of `load_yaml`: read the text, reject tab characters before parsing,
otherwise hand the text to the (external) YAML parser, here a parameter. -/
def load_yaml (parse : String → Except String Yaml) (text : String) :
    Except String Yaml :=
  if hasTab text then .error (tabErrorMsg (tabLines text)) else parse text

/-- Model of `detect_version`: `"2.x"` when the root mapping has an `aismm` key,
else `"1.x"` when it has both `domains` and `pillars`, else undetected. -/
def detect_version (doc : Yaml) : Option String :=
  match doc with
  | .map kvs =>
    if hasKey kvs "aismm" then some "2.x"
    else if hasKey kvs "domains" && hasKey kvs "pillars" then some "1.x"
    else none
  | _ => none

def expected_levels : List String := ["level_1", "level_2", "level_3", "level_4", "level_5"]

/-- Model of `set(level_keys) == set(expected_levels)`. -/
def sameKeySet (keys : List String) : Bool :=
  expected_levels.all (fun k => keys.contains k) && keys.all (fun k => expected_levels.contains k)

/-- Rendering of a Python set of strings in an f-string.  CPython's set
iteration order is unspecified; the model renders the given list order
(`expected_levels` order for missing keys, sorted order for extra keys). -/
def pySetRepr (xs : List String) : String :=
  "\x7b" ++ String.intercalate ", " (xs.map pyQuote) ++ "\x7d"

def sortStrings (l : List String) : List String := l.insertionSort (· ≤ ·)

def v1_required_keys : List String :=
  ["version", "name", "description", "scoring_config", "pillars", "domains"]

/-- Required top-level key loop of `validate_v1`. -/
def v1TopKeyErrors (kvs : List (String × Yaml)) : List String :=
  (v1_required_keys.filter (fun k => !hasKey kvs k)).map
    (fun k => "Missing required top-level key: " ++ pyQuote k)

/-- The `scoring_config` block of `validate_v1`. -/
def v1ScoringErrors (kvs : List (String × Yaml)) : List String :=
  match (pyGet kvs "scoring_config").getD (.map []) with
  | .map skvs =>
      (["level_scores", "maturity_thresholds"].filter (fun k => !hasKey skvs k)).map
        (fun k => "scoring_config missing " ++ pyQuote k)
  | _ => ["\x27scoring_config\x27 should be a mapping"]

def v1PillarEntryErrors (pid : String) (pdata : Yaml) : List String :=
  match pdata with
  | .map pkvs =>
      (["id", "name", "description", "weight"].filter (fun f => !hasKey pkvs f)).map
        (fun f => "pillars." ++ pid ++ " missing " ++ pyQuote f)
  | _ => ["pillars." ++ pid ++ " should be a mapping"]

/-- The `pillars` block of `validate_v1`. -/
def v1PillarsErrors (pillars : Yaml) : List String :=
  match pillars with
  | .map pkvs => (pkvs.map (fun p => v1PillarEntryErrors p.1 p.2)).flatten
  | _ => ["\x27pillars\x27 should be a mapping"]

def danglingMsg (pfx : String) (v : Yaml) : String :=
  pfx ++ ".pillar " ++ pyQuote (pyStr v) ++ " not found in pillars definition"

/-- Model of `if pillar_ref and pillar_ref not in pillars` in `validate_v1`: the
membership test runs whenever the reference is truthy, whatever `pillars`
is, and raises whenever Python's `in` would. -/
def v1PillarRef (pillars : Yaml) (pfx : String) (dkvs : List (String × Yaml)) :
    Except String (List String) :=
  let v := (pyGet dkvs "pillar").getD .null
  if pyTruthy v then do
    let mem ← pyIn v pillars
    if mem then .ok [] else .ok [danglingMsg pfx v]
  else .ok []

/-- The `levels` block of the domain loop of `validate_v1`. -/
def v1LevelErrors (pfx : String) (dkvs : List (String × Yaml)) : List String :=
  match (pyGet dkvs "levels").getD (.map []) with
  | .map lkvs =>
      let keys := dedupFirst (lkvs.map (·.1))
      if sameKeySet keys then []
      else
        let missing := expected_levels.filter (fun k => !keys.contains k)
        let extra := keys.filter (fun k => !expected_levels.contains k)
        (if missing.isEmpty then [] else [pfx ++ ".levels missing: " ++ pySetRepr missing]) ++
        (if extra.isEmpty then []
         else [pfx ++ ".levels has unexpected keys: " ++ pySetRepr (sortStrings extra)])
  | _ => [pfx ++ ".levels should be a mapping"]

/-- The `if x and not isinstance(x, list)` check for `framework_alignment` and
`key_controls`. -/
def v1SeqFieldError (pfx : String) (dkvs : List (String × Yaml)) (field : String) :
    List String :=
  let v := (pyGet dkvs field).getD (.list [])
  if pyTruthy v && !v.isList then [pfx ++ "." ++ field ++ " should be a list"] else []

def v1QuestionErrors (qpfx : String) (q : Yaml) : List String :=
  match q with
  | .map qkvs =>
      (["id", "text", "question_type"].filter (fun f => !hasKey qkvs f)).map
        (fun f => qpfx ++ " missing " ++ pyQuote f)
  | _ => [qpfx ++ " should be a mapping"]

/-- The `questions` block of the domain loop of `validate_v1`.  Note: no check
of the question `type` enumeration appears here. -/
def v1QuestionsErrors (pfx : String) (dkvs : List (String × Yaml)) : List String :=
  let qs := (pyGet dkvs "questions").getD (.list [])
  if pyTruthy qs && !qs.isList then [pfx ++ ".questions should be a list"]
  else if pyTruthy qs then
    match qs with
    | .list l =>
        (l.enum.map (fun p =>
          v1QuestionErrors (pfx ++ ".questions[" ++ toString (p.1 + 1) ++ "]") p.2)).flatten
    | _ => []
  else []

/-- One iteration of the domain loop of `validate_v1`. -/
def v1DomainErrors (pillars : Yaml) (did : String) (ddata : Yaml) :
    Except String (List String) :=
  let pfx := "domains." ++ did
  match ddata with
  | .map dkvs => do
      let fieldErrs := (["id", "name", "description", "pillar"].filter
        (fun f => !hasKey dkvs f)).map (fun f => pfx ++ " missing " ++ pyQuote f)
      let refErrs ← v1PillarRef pillars pfx dkvs
      .ok (fieldErrs ++ refErrs ++ v1LevelErrors pfx dkvs ++
        v1SeqFieldError pfx dkvs "framework_alignment" ++
        v1SeqFieldError pfx dkvs "key_controls" ++ v1QuestionsErrors pfx dkvs)
  | _ => .ok [pfx ++ " should be a mapping"]

/-- The domain loop of `validate_v1`. -/
def v1DomainsErrors (pillars : Yaml) : List (String × Yaml) → Except String (List String)
  | [] => .ok []
  | (did, dd) :: rest => do
      let e ← v1DomainErrors pillars did dd
      let es ← v1DomainsErrors pillars rest
      .ok (e ++ es)

/-- Model of `validate_v1`.  A `.error` result models an uncaught Python exception
(the function is only ever called on mapping documents; non-mapping roots
raise `AttributeError` at `doc.get` before returning). -/
def validate_v1 (doc : Yaml) : Except String (List String) :=
  match doc with
  | .map kvs => do
      let pillars := (pyGet kvs "pillars").getD (.map [])
      let domErrs ←
        match (pyGet kvs "domains").getD (.map []) with
        | .map dkvs => v1DomainsErrors pillars dkvs
        | _ => pure ["\x27domains\x27 should be a mapping"]
      .ok (v1TopKeyErrors kvs ++ v1ScoringErrors kvs ++ v1PillarsErrors pillars ++ domErrs)
  | _ => .error "AttributeError: \x27get\x27 called on a non-mapping document"

def allowed_types : List String :=
  ["multiple_choice", "true_false", "scoring", "free_text", "numeric"]

/-- Model of `qq.get("type") not in allowed_types`, negated (tuple membership via
`==`, so it never raises). -/
def typeAllowed (t : Yaml) : Bool := allowed_types.any (fun a => pyEq (.str a) t)

def unsupportedTypeMsg (qpre : String) (t : Yaml) : String :=
  qpre ++ " has unsupported type " ++ pyQuote (pyStr t)

/-- One iteration of the questionnaire loop of `validate_v2`. -/
def v2QuestionErrors (qpre : String) (q : Yaml) : List String :=
  match q with
  | .map qkvs =>
      ((["id", "type", "title", "help_text", "required"].filter
          (fun f => !hasKey qkvs f)).map (fun f => qpre ++ " missing " ++ pyQuote f)) ++
      (let t := (pyGet qkvs "type").getD .null
       if typeAllowed t then [] else [unsupportedTypeMsg qpre t])
  | _ => [qpre ++ " is not a mapping"]

/-- The `assessment_questionnaire` block of `validate_v2`. -/
def v2QuestionnaireErrors (akvs : List (String × Yaml)) : List String :=
  match pyGet akvs "assessment_questionnaire" with
  | none | some .null => ["Missing \x27assessment_questionnaire\x27 section"]
  | some q =>
    let questions : Option Yaml :=
      match q with
      | .map qkvs =>
          match pyGet qkvs "questions" with
          | some .null => none
          | o => o
      | _ => none
    match questions with
    | none => ["\x27assessment_questionnaire\x27 missing \x27questions\x27 list"]
    | some (.list l) =>
        (l.enum.map (fun p =>
          v2QuestionErrors ("assessment_questionnaire.questions[" ++ toString (p.1 + 1) ++ "]")
            p.2)).flatten
    | some _ => ["assessment_questionnaire.questions should be a list"]

def levelOf : Yaml → Yaml
  | .map mkvs => (pyGet mkvs "level").getD .null
  | _ => .null

/-- Model of `[m.get("level") for m in mls if isinstance(m, dict)]`. -/
def collectLevels (mls : List Yaml) : List Yaml :=
  (mls.filter Yaml.isDict).map levelOf

def oneToFive : List Yaml := [.int 1, .int 2, .int 3, .int 4, .int 5]

def maturityMsg (dpre : String) : String :=
  dpre ++ ".maturity_levels should contain levels 1..5"

/-- The `sorted(levels) != [1,2,3,4,5]` check of `validate_v2`. -/
def v2MaturityCheck (dpre : String) (mls : List Yaml) : Except String (List String) := do
  let s ← pySorted (collectLevels mls)
  if pyEqList s oneToFive then .ok [] else .ok [maturityMsg dpre]

/-- The `mappings` block of the domain loop of `validate_v2`. -/
def v2MappingsErrors (dpre : String) (dkvs : List (String × Yaml)) : List String :=
  if hasKey dkvs "mappings" then
    match (pyGet dkvs "mappings").getD .null with
    | .map mkvs =>
        (mkvs.filter (fun p => !p.2.isList)).map
          (fun p => dpre ++ ".mappings." ++ p.1 ++ " should be a list")
    | _ => [dpre ++ ".mappings should be a mapping"]
  else []

/-- One iteration of the domain loop of `validate_v2`. -/
def v2DomainErrors (dpre : String) (dom : Yaml) : Except String (List String) :=
  match dom with
  | .map dkvs => do
      let idErrs :=
        (if hasKey dkvs "id" then [] else [dpre ++ " missing \x27id\x27"]) ++
        (if hasKey dkvs "id_code" then [] else [dpre ++ " missing \x27id_code\x27"])
      let mlErrs ←
        if !hasKey dkvs "maturity_levels" then
          pure [dpre ++ " missing \x27maturity_levels\x27 list"]
        else
          match (pyGet dkvs "maturity_levels").getD .null with
          | .list mls => v2MaturityCheck dpre mls
          | _ => pure [dpre ++ ".maturity_levels should be a list"]
      .ok (idErrs ++ v2MappingsErrors dpre dkvs ++ mlErrs)
  | _ => .ok [dpre ++ " is not a mapping"]

/-- The `enumerate(doms, start=1)` loop of `validate_v2`. -/
def v2DomainsGo (cpre : String) (i : Nat) : List Yaml → Except String (List String)
  | [] => .ok []
  | d :: rest => do
      let e ← v2DomainErrors (cpre ++ ".domains[" ++ toString i ++ "]") d
      let es ← v2DomainsGo cpre (i + 1) rest
      .ok (e ++ es)

/-- One iteration of the component loop of `validate_v2`. -/
def v2ComponentErrors (ci : Nat) (comp : Yaml) : Except String (List String) :=
  let cpre := "components[" ++ toString ci ++ "]"
  match comp with
  | .map ckvs => do
      let idErrs :=
        (if hasKey ckvs "id" then [] else [cpre ++ " missing \x27id\x27"]) ++
        (if hasKey ckvs "id_code" then [] else [cpre ++ " missing \x27id_code\x27"])
      let domErrs ←
        match pyGet ckvs "domains" with
        | none | some .null => pure [cpre ++ " missing \x27domains\x27 list"]
        | some (.list doms) => v2DomainsGo cpre 1 doms
        | some _ => pure [cpre ++ ".domains should be a list"]
      .ok (idErrs ++ domErrs)
  | _ => .ok [cpre ++ " is not a mapping"]

def v2ComponentsGo (i : Nat) : List Yaml → Except String (List String)
  | [] => .ok []
  | c :: rest => do
      let e ← v2ComponentErrors i c
      let es ← v2ComponentsGo (i + 1) rest
      .ok (e ++ es)

/-- The `components` block of `validate_v2`. -/
def v2ComponentsErrors (akvs : List (String × Yaml)) : Except String (List String) :=
  match pyGet akvs "components" with
  | none | some .null => .ok ["Missing \x27components\x27 list"]
  | some (.list comps) => v2ComponentsGo 1 comps
  | some _ => .ok ["\x27components\x27 should be a list"]

/-- Model of `validate_v2`.  A `.error` result models an uncaught Python exception
(`sorted()` on incomparable level values, or a non-mapping document whose
`in` test passed). -/
def validate_v2 (doc : Yaml) : Except String (List String) := do
  let mem ← pyIn (.str "aismm") doc
  if !mem then .ok ["Missing top-level \x27aismm\x27 key"]
  else
    match doc with
    | .map kvs =>
        match (pyGet kvs "aismm").getD (.map []) with
        | .map akvs => do
            let compErrs ← v2ComponentsErrors akvs
            .ok (compErrs ++ v2QuestionnaireErrors akvs)
        | _ => .ok ["\x27aismm\x27 should be a mapping"]
    | _ => .error "AttributeError: \x27get\x27 called on a non-mapping document"

/-- Outcome of one `main()` run, from the point where the document has been
parsed.  `crash` models an uncaught exception escaping a validator. -/
inductive RunOutcome : Type where
  | noDetect : RunOutcome
  | crash (msg : String) : RunOutcome
  | invalid (defects : List String) : RunOutcome
  | valid (version : String) : RunOutcome
  deriving DecidableEq

/-- Validator dispatch of `main()`. -/
def dispatchValidator (version : String) (doc : Yaml) : Except String (List String) :=
  if version = "1.x" then validate_v1 doc else validate_v2 doc

/-- Model of `main()` from the parsed document onward: detect the shape, dispatch,
and classify the run. -/
def mainOnDoc (doc : Yaml) : RunOutcome :=
  match detect_version doc with
  | none => .noDetect
  | some v =>
    match dispatchValidator v doc with
    | .error m => .crash m
    | .ok [] => .valid v
    | .ok errs => .invalid errs

/-- Process exit status of a run (`sys.exit(2)` on undetectable shape,
`sys.exit(1)` on defects, interpreter exit 1 on an uncaught exception,
0 on success). -/
def exitCode : RunOutcome → Nat
  | .noDetect => 2
  | .crash _ => 1
  | .invalid _ => 1
  | .valid _ => 0

/-- Whether `main()` reaches a summary reporter (`print_summary_v1/v2`). -/
def summaryInvoked : RunOutcome → Bool
  | .valid _ => true
  | _ => false

/-- The failure report: header line plus one ` - defect` line per defect,
in discovery order; empty for non-`invalid` outcomes. -/
def failureLines : RunOutcome → List String
  | .invalid errs =>
      ("Validation FAILED with " ++ toString errs.length ++ " issue(s):") ::
        errs.map (fun e => " - " ++ e)
  | _ => []

/-! Concrete documents used by counterexamples and witnesses. -/

def mkPillar (i : String) : Yaml :=
  .map [("id", .str i), ("name", .str "N"), ("description", .str "D"), ("weight", .int 1)]

def mkLevels : Yaml :=
  .map [("level_1", .str "a"), ("level_2", .str "b"), ("level_3", .str "c"),
        ("level_4", .str "d"), ("level_5", .str "e")]

def lvlEntry (n : Int) : Yaml := .map [("level", .int n)]

/-- A fully valid Legacy document whose one question has
`question_type: "essay"`. -/
def essayDoc : Yaml :=
  .map [("version", .str "1.0"), ("name", .str "n"), ("description", .str "d"),
        ("scoring_config", .map [("level_scores", .map []), ("maturity_thresholds", .map [])]),
        ("pillars", .map [("p1", mkPillar "p1")]),
        ("domains", .map [("d1", .map [("id", .str "d1"), ("name", .str "n"),
          ("description", .str "d"), ("pillar", .str "p1"), ("levels", mkLevels),
          ("questions", .list [.map [("id", .str "q1"), ("text", .str "t"),
            ("question_type", .str "essay")]])])])]

/-- Legacy document whose domain `d1` has the truthy but unhashable
`pillar` value `[0]`. -/
def crashV1Doc : Yaml :=
  .map [("pillars", .map []), ("domains", .map [("d1", .map [("pillar", .list [.int 0])])])]

/-- Structured document whose `maturity_levels` mixes a string level with an
integer level. -/
def crashV2Doc : Yaml :=
  .map [("aismm", .map [("components", .list [.map [("id", .str "c"), ("id_code", .str "C"),
    ("domains", .list [.map [("id", .str "d"), ("id_code", .str "D"),
      ("maturity_levels", .list [.map [("level", .str "a")], lvlEntry 1])]])]]),
    ("assessment_questionnaire", .map [("questions", .list [])])])]

/-- Legacy document with three independent defects: a missing top-level
`name`, a dangling pillar reference and an incomplete level set. -/
def threeDefectDoc : Yaml :=
  .map [("version", .str "1.0"), ("description", .str "d"),
        ("scoring_config", .map [("level_scores", .map []), ("maturity_thresholds", .map [])]),
        ("pillars", .map [("p1", mkPillar "p1")]),
        ("domains", .map [("d1", .map [("id", .str "d1"), ("name", .str "n"),
          ("description", .str "d"), ("pillar", .str "p9"),
          ("levels", .map [("level_1", .str "a"), ("level_2", .str "b"), ("level_3", .str "c"),
                           ("level_4", .str "d")])])])]

def threeDefects : List String :=
  ["Missing required top-level key: \x27name\x27",
   "domains.d1.pillar \x27p9\x27 not found in pillars definition",
   "domains.d1.levels missing: \x7b\x27level_5\x27\x7d"]

/-- Legacy document where domain `d1` lacks `level_5` and domain `d2` has a
stray `level_6`. -/
def twoDomainLevelsDoc : Yaml :=
  .map [("version", .str "1.0"), ("name", .str "n"), ("description", .str "d"),
        ("scoring_config", .map [("level_scores", .map []), ("maturity_thresholds", .map [])]),
        ("pillars", .map [("p1", mkPillar "p1")]),
        ("domains", .map [
          ("d1", .map [("id", .str "d1"), ("name", .str "n"), ("description", .str "d"),
            ("pillar", .str "p1"),
            ("levels", .map [("level_1", .str "a"), ("level_2", .str "b"),
                             ("level_3", .str "c"), ("level_4", .str "d")])]),
          ("d2", .map [("id", .str "d2"), ("name", .str "n"), ("description", .str "d"),
            ("pillar", .str "p1"),
            ("levels", .map [("level_1", .str "a"), ("level_2", .str "b"), ("level_3", .str "c"),
                             ("level_4", .str "d"), ("level_5", .str "e"),
                             ("level_6", .str "f")])])])]

/-- Six `maturity_levels` entries with level values `1,2,3,4,5,5`: six entries
whose set of values is exactly `{1,...,5}`. -/
def dupLevelEntries : List Yaml :=
  [lvlEntry 1, lvlEntry 2, lvlEntry 3, lvlEntry 4, lvlEntry 5, lvlEntry 5]

/-- Structured document whose only domain carries `dupLevelEntries`. -/
def dupLevelDoc : Yaml :=
  .map [("aismm", .map [("components", .list [.map [("id", .str "c"), ("id_code", .str "C"),
    ("domains", .list [.map [("id", .str "d"), ("id_code", .str "D"),
      ("maturity_levels", .list dupLevelEntries)]])]]),
    ("assessment_questionnaire", .map [("questions", .list [])])])]

/-- Legacy document whose `pillars` value is a sequence (not a mapping) and
whose domain references `p2`, which is not in that sequence. -/
def listPillarsDoc : Yaml :=
  .map [("version", .str "1.0"), ("name", .str "n"), ("description", .str "d"),
        ("scoring_config", .map [("level_scores", .map []), ("maturity_thresholds", .map [])]),
        ("pillars", .list [.str "p1"]),
        ("domains", .map [("d1", .map [("id", .str "d1"), ("name", .str "n"),
          ("description", .str "d"), ("pillar", .str "p2"), ("levels", mkLevels)])])]

/-- Legacy document where `d1` has a dangling pillar reference and the later
domain `d2` is missing its `name` field. -/
def danglingContinueDoc : Yaml :=
  .map [("version", .str "1.0"), ("name", .str "n"), ("description", .str "d"),
        ("scoring_config", .map [("level_scores", .map []), ("maturity_thresholds", .map [])]),
        ("pillars", .map [("p1", mkPillar "p1")]),
        ("domains", .map [
          ("d1", .map [("id", .str "d1"), ("name", .str "n"), ("description", .str "d"),
            ("pillar", .str "p9"), ("levels", mkLevels)]),
          ("d2", .map [("id", .str "d2"), ("description", .str "d"),
            ("pillar", .str "p1"), ("levels", mkLevels)])])]

/-- Root carrying the Structured signature key (with a non-mapping value)
together with both Legacy signature keys. -/
def bothSignaturesDoc : Yaml :=
  .map [("aismm", .int 0), ("domains", .map []), ("pillars", .map [])]

/-- An otherwise fully valid Structured document whose single question has
all five required fields and `type` value `t`. -/
def v2QuestionDoc (t : Yaml) : Yaml :=
  .map [("aismm", .map [
    ("components", .list [.map [("id", .str "c1"), ("id_code", .str "C1"),
      ("domains", .list [.map [("id", .str "d1"), ("id_code", .str "D1"),
        ("maturity_levels", .list [lvlEntry 1, lvlEntry 2, lvlEntry 3, lvlEntry 4,
          lvlEntry 5])]])]]),
    ("assessment_questionnaire", .map [("questions", .list [.map [("id", .str "q1"),
      ("type", t), ("title", .str "T"), ("help_text", .str "H"),
      ("required", .bool true)]])])])]

/-! Claim C1 -/

/-- C1 counterexample.  The claim requires a root containing both the
Structured and the Legacy signature keys to be classified Unknown, and
Structured classification only when the wrapper key holds a mapping with a
`components` key.  `detect_version` classifies `bothSignaturesDoc` as
`"2.x"` (Structured), not Unknown, and does so although the `aismm` value
is the integer `0`, not a mapping containing `components`. -/
theorem detect_version_overlap_counterexample :
    detect_version bothSignaturesDoc = some "2.x" ∧
    detect_version bothSignaturesDoc ≠ none ∧
    detect_version (Yaml.map [("aismm", Yaml.int 0)]) = some "2.x" := by
  refine ⟨rfl, ?_, rfl⟩
  intro h
  exact Option.noConfusion ((rfl : detect_version bothSignaturesDoc = some "2.x") ▸ h)

/-- C1 amended.  `detect_version` returns `"2.x"` exactly when the root is
a mapping containing the key `aismm` (whatever its value), `"1.x"` exactly
when the root is a mapping without `aismm` but with both `domains` and
`pillars`, and is undetected otherwise — in particular a root with both
signatures is Structured, not Unknown.  An undetected shape makes `main`
stop with exit status 2 before any structural validator runs. -/
theorem detect_version_characterization (doc : Yaml) :
    (detect_version doc = some "2.x" ↔
      ∃ kvs, doc = Yaml.map kvs ∧ hasKey kvs "aismm" = true) ∧
    (detect_version doc = some "1.x" ↔
      ∃ kvs, doc = Yaml.map kvs ∧ hasKey kvs "aismm" = false ∧
        hasKey kvs "domains" = true ∧ hasKey kvs "pillars" = true) ∧
    (detect_version doc = none →
      mainOnDoc doc = RunOutcome.noDetect ∧ exitCode (mainOnDoc doc) = 2 ∧
        summaryInvoked (mainOnDoc doc) = false) := by
  cases doc with
  | map kvs =>
      by_cases h1 : hasKey kvs "aismm"
      · simp [detect_version, mainOnDoc, exitCode, summaryInvoked, h1]
      · by_cases h2 : hasKey kvs "domains" <;> by_cases h3 : hasKey kvs "pillars" <;>
          simp [detect_version, mainOnDoc, exitCode, summaryInvoked, h1, h2, h3]
  | null => simp [detect_version, mainOnDoc, exitCode, summaryInvoked]
  | bool b => simp [detect_version, mainOnDoc, exitCode, summaryInvoked]
  | int n => simp [detect_version, mainOnDoc, exitCode, summaryInvoked]
  | str s => simp [detect_version, mainOnDoc, exitCode, summaryInvoked]
  | list xs => simp [detect_version, mainOnDoc, exitCode, summaryInvoked]

/-- C1 witness: an empty mapping has neither signature and is rejected with
exit status 2 before validation. -/
theorem detect_version_characterization_witness :
    mainOnDoc (Yaml.map []) = RunOutcome.noDetect ∧
    exitCode (mainOnDoc (Yaml.map [])) = 2 ∧
    summaryInvoked (mainOnDoc (Yaml.map [])) = false :=
  (detect_version_characterization (Yaml.map [])).2.2 rfl

/-! Claim C2 -/

/-- C2: both shape validators can raise on purely data-shape problems.
`validate_v1` raises `TypeError` when a domain's `pillar` value is a truthy
unhashable value (here the list `[0]`, tested for membership in the
`pillars` dict), and `validate_v2` raises `TypeError` from `sorted()` when
the collected `level` values mix strings and integers. -/
theorem validators_raise_on_malformed_data :
    validate_v1 crashV1Doc = .error "TypeError: unhashable type: \x27list\x27" ∧
    validate_v2 crashV2Doc =
      .error "TypeError: \x27<\x27 not supported between mixed element types" :=
  ⟨rfl, rfl⟩

/-! Claim C3 -/

/-- C3 counterexample.  In the Legacy shape an unrecognized question type is
silently ignored: `essayDoc` contains a question whose `question_type` is
`"essay"`, yet `validate_v1` reports no defect at all — not the exactly-one
invalid-enum defect the claim requires in both shapes. -/
theorem legacy_unknown_question_type_unflagged :
    validate_v1 essayDoc = .ok [] ∧
    pyGet [("id", Yaml.str "q1"), ("text", Yaml.str "t"),
      ("question_type", Yaml.str "essay")] "question_type" = some (Yaml.str "essay") :=
  ⟨rfl, rfl⟩

/-- C3 amended.  In the Structured shape, a question whose `type` value `t`
is not among the five allowed types yields exactly one unsupported-type
defect naming `t`, and an allowed type yields none; the Legacy validator
performs no such check. -/
theorem v2_unknown_question_type_exactly_one (t : Yaml) :
    validate_v2 (v2QuestionDoc t) =
      .ok (if typeAllowed t then []
           else [unsupportedTypeMsg "assessment_questionnaire.questions[1]" t]) := by
  have hs : "assessment_questionnaire.questions[" ++ toString (0 + 1) ++ "]" =
      "assessment_questionnaire.questions[1]" := rfl
  have base : validate_v2 (v2QuestionDoc t) =
      .ok ([] ++ (([] ++ (if typeAllowed t then []
        else [unsupportedTypeMsg
          ("assessment_questionnaire.questions[" ++ toString (0 + 1) ++ "]") t])) ++ [])) := rfl
  rw [hs] at base
  rw [base]
  cases h : typeAllowed t <;> simp [h]

/-! Claim C4 -/

theorem mainOnDoc_eq (doc : Yaml) (v : String)
    (hv : detect_version doc = some v) :
    mainOnDoc doc = match dispatchValidator v doc with
      | Except.error m => RunOutcome.crash m
      | Except.ok [] => RunOutcome.valid v
      | Except.ok errs => RunOutcome.invalid errs := by
  unfold mainOnDoc
  rw [hv]

/-- C4.  When the dispatched validator returns a defect list, `main` maps a
nonempty list of N defects to an `invalid` run with exit status 1, a report
of a "Validation FAILED" header naming N followed by one ` - defect` line
per defect in discovery order, and no summary; an empty list gives exit
status 0 and invokes the summary reporter.  The defect list printed is the
whole list produced by the single validator run. -/
theorem main_defect_accumulation_and_exit (doc : Yaml) (v : String) (errs : List String)
    (hv : detect_version doc = some v) (hr : dispatchValidator v doc = .ok errs) :
    (errs ≠ [] → mainOnDoc doc = RunOutcome.invalid errs ∧
      exitCode (mainOnDoc doc) = 1 ∧ summaryInvoked (mainOnDoc doc) = false ∧
      failureLines (mainOnDoc doc) =
        ("Validation FAILED with " ++ toString errs.length ++ " issue(s):") ::
          errs.map (fun e => " - " ++ e)) ∧
    (errs = [] → mainOnDoc doc = RunOutcome.valid v ∧
      exitCode (mainOnDoc doc) = 0 ∧ summaryInvoked (mainOnDoc doc) = true) := by
  have key := mainOnDoc_eq doc v hv
  rw [hr] at key
  cases errs with
  | nil => simp only [key]; simp [exitCode, summaryInvoked]
  | cons a as => simp only [key]; simp [exitCode, summaryInvoked, failureLines]

/-- C4 witness: `threeDefectDoc` carries three independent defects (missing
top-level field, dangling pillar reference, incomplete level set); one run
reports all three, exits 1 and skips the summary, while the fully valid
`essayDoc` exits 0 and reaches the summary. -/
theorem main_defect_accumulation_and_exit_witness :
    mainOnDoc threeDefectDoc = RunOutcome.invalid threeDefects ∧
    exitCode (mainOnDoc threeDefectDoc) = 1 ∧
    summaryInvoked (mainOnDoc threeDefectDoc) = false ∧
    threeDefects.length = 3 ∧
    exitCode (mainOnDoc essayDoc) = 0 ∧
    summaryInvoked (mainOnDoc essayDoc) = true := by
  have h1 := (main_defect_accumulation_and_exit threeDefectDoc "1.x" threeDefects rfl rfl).1
    (by simp [threeDefects])
  have h2 := (main_defect_accumulation_and_exit essayDoc "1.x" [] rfl rfl).2 rfl
  exact ⟨h1.1, h1.2.1, h1.2.2.1, rfl, h2.2.1, h2.2.2⟩

/-! Claim C7 (counterexample) -/

/-- C7 counterexample.  In `dupLevelDoc` the set of collected `level`
values is exactly `{1,2,3,4,5}` (shown by deduplication), so a set-exact
comparison reporting missing and unexpected members separately would
report nothing; yet `validate_v2` emits one generic defect, because its
check is `sorted(levels) != [1,2,3,4,5]`, which rejects the duplicate and
names no missing or unexpected member. -/
theorem v2_maturity_set_equal_still_flagged :
    validate_v2 dupLevelDoc = .ok [maturityMsg "components[1].domains[1]"] ∧
    ((collectLevels dupLevelEntries).map numVal).dedup = [1, 2, 3, 4, 5] ∧
    (collectLevels dupLevelEntries).map numVal = [1, 2, 3, 4, 5, 5] := by
  refine ⟨rfl, by decide, rfl⟩

/-! Claim C8 (counterexample) -/

/-- C8 counterexample.  In `listPillarsDoc` the `pillars` collection is a
sequence, reported as "should be a mapping" — it did not validate as a
mapping — and yet the pillar-reference check still ran for domain `d1` and
emitted a dangling-reference defect (Python's `in` falls back to sequence
membership), contradicting "runs only if the `pillars` collection itself
validated as a mapping". -/
theorem v1_pillar_ref_runs_unguarded :
    validate_v1 listPillarsDoc =
      .ok ["\x27pillars\x27 should be a mapping",
           "domains.d1.pillar \x27p2\x27 not found in pillars definition"] :=
  rfl

/-! Claim C8 (amended theorem) -/

/-- C8 amended.  The membership test itself is not gated on `pillars` being
a mapping (see the counterexample); what does hold is: when `pillars` *is*
a mapping, a domain whose `pillar` value is a nonempty string absent from
the pillar keys yields exactly the one dangling-reference defect from the
reference check (a present key yields none), and the domain loop always
continues into later domains, appending their defects. -/
theorem v1_pillar_ref_on_mapping_pillars (pkvs : List (String × Yaml)) (pfx : String)
    (dkvs : List (String × Yaml)) (s : String)
    (hget : pyGet dkvs "pillar" = some (Yaml.str s)) (hne : s ≠ "") :
    (v1PillarRef (Yaml.map pkvs) pfx dkvs =
      .ok (if hasKey pkvs s then [] else [danglingMsg pfx (Yaml.str s)])) ∧
    (∀ pillars did ddata rest e es, v1DomainErrors pillars did ddata = .ok e →
      v1DomainsErrors pillars rest = .ok es →
      v1DomainsErrors pillars ((did, ddata) :: rest) = .ok (e ++ es)) := by
  constructor
  · unfold v1PillarRef
    rw [hget]
    show (if pyTruthy (Yaml.str s) = true then do
        let mem ← pyIn (Yaml.str s) (Yaml.map pkvs)
        if mem = true then Except.ok [] else Except.ok [danglingMsg pfx (Yaml.str s)]
      else Except.ok []) =
      Except.ok (if hasKey pkvs s = true then [] else [danglingMsg pfx (Yaml.str s)])
    rw [show pyTruthy (Yaml.str s) = true from by simp [pyTruthy, hne]]
    rw [show pyIn (Yaml.str s) (Yaml.map pkvs) = Except.ok (hasKey pkvs s) from rfl]
    cases h : hasKey pkvs s <;> rfl
  · intro pillars did ddata rest e es h1 h2
    unfold v1DomainsErrors
    rw [h1, h2]
    rfl

/-- C8 witness: with a well-formed pillar mapping declaring only `p1`, a
domain referencing `p2` gets exactly one dangling-reference defect, and a
two-domain document accumulates the later domain's defect after it. -/
theorem v1_pillar_ref_on_mapping_pillars_witness :
    v1PillarRef (Yaml.map [("p1", mkPillar "p1")]) "domains.d1" [("pillar", Yaml.str "p2")] =
      .ok [danglingMsg "domains.d1" (Yaml.str "p2")] ∧
    validate_v1 danglingContinueDoc =
      .ok ["domains.d1.pillar \x27p9\x27 not found in pillars definition",
           "domains.d2 missing \x27name\x27"] := by
  have h := (v1_pillar_ref_on_mapping_pillars [("p1", mkPillar "p1")] "domains.d1"
    [("pillar", Yaml.str "p2")] "p2" rfl (by decide)).1
  exact ⟨by rw [h]; rfl, rfl⟩

/-! Claim C9 -/

/-- C9.  A domain whose `pillar` value is falsy (absent, null, empty
string, or any other falsy value) never produces a dangling-reference
defect, whatever the `pillars` collection holds; and whenever the
reference check does produce defects, the `pillar` value was truthy, its
membership test in `pillars` evaluated to `False`, and the output is the
single dangling-reference defect. -/
theorem v1_falsy_pillar_ref_silent (pillars : Yaml) (pfx : String)
    (dkvs : List (String × Yaml)) :
    (pyTruthy ((pyGet dkvs "pillar").getD Yaml.null) = false →
      v1PillarRef pillars pfx dkvs = .ok []) ∧
    (∀ out, v1PillarRef pillars pfx dkvs = .ok out → out ≠ [] →
      pyTruthy ((pyGet dkvs "pillar").getD Yaml.null) = true ∧
      pyIn ((pyGet dkvs "pillar").getD Yaml.null) pillars = .ok false ∧
      out = [danglingMsg pfx ((pyGet dkvs "pillar").getD Yaml.null)]) := by
  have hv : v1PillarRef pillars pfx dkvs =
      (if pyTruthy ((pyGet dkvs "pillar").getD Yaml.null) = true then do
        let mem ← pyIn ((pyGet dkvs "pillar").getD Yaml.null) pillars
        if mem = true then Except.ok []
        else Except.ok [danglingMsg pfx ((pyGet dkvs "pillar").getD Yaml.null)]
      else Except.ok []) := rfl
  constructor
  · intro h
    rw [hv, h]
    rfl
  · intro out hout hne
    rw [hv] at hout
    by_cases ht : pyTruthy ((pyGet dkvs "pillar").getD Yaml.null) = true
    · rw [if_pos ht] at hout
      refine ⟨ht, ?_⟩
      cases hm : pyIn ((pyGet dkvs "pillar").getD Yaml.null) pillars with
      | error m =>
          rw [hm] at hout
          exact Except.noConfusion
            (show (Except.error m : Except String (List String)) = Except.ok out from hout)
      | ok b =>
          rw [hm] at hout
          cases b with
          | true =>
              have h2 : (Except.ok [] : Except String (List String)) = Except.ok out := hout
              cases h2
              exact absurd rfl hne
          | false =>
              have h2 : (Except.ok [danglingMsg pfx ((pyGet dkvs "pillar").getD Yaml.null)] :
                  Except String (List String)) = Except.ok out := hout
              cases h2
              exact ⟨rfl, rfl⟩
    · rw [if_neg ht] at hout
      have h2 : (Except.ok [] : Except String (List String)) = Except.ok out := hout
      cases h2
      exact absurd rfl hne

/-- C9 witness: an empty-string pillar reference, matching no key of the
declared pillar mapping, is silently accepted. -/
theorem v1_falsy_pillar_ref_silent_witness :
    v1PillarRef (Yaml.map [("p1", mkPillar "p1")]) "domains.d1"
      [("pillar", Yaml.str "")] = .ok [] ∧
    hasKey [("p1", mkPillar "p1")] "" = false :=
  ⟨(v1_falsy_pillar_ref_silent (Yaml.map [("p1", mkPillar "p1")]) "domains.d1"
      [("pillar", Yaml.str "")]).1 rfl, rfl⟩

/-! Claim C6 -/

theorem sameKeySet_iff_filters (keys : List String) :
    sameKeySet keys = true ↔
      (expected_levels.filter (fun k => !keys.contains k)) = [] ∧
      (keys.filter (fun k => !expected_levels.contains k)) = [] := by
  simp [sameKeySet, List.all_eq_true, List.filter_eq_nil_iff]

/-- C6.  For a `levels` value that is a mapping, the check compares the key
set with `{level_1..level_5}`: the missing keys and the unexpected keys are
computed as the two set differences and each nonempty difference produces
its own defect carrying exactly those keys; a matching key set produces no
defect.  The concrete `twoDomainLevelsDoc` shows a missing-`level_5` defect
for one domain and an unexpected-`level_6` defect for another in the same
run. -/
theorem v1_level_set_exactness :
    (∀ pfx (dkvs lkvs : List (String × Yaml)),
      pyGet dkvs "levels" = some (Yaml.map lkvs) →
      v1LevelErrors pfx dkvs =
        (if (expected_levels.filter
              (fun k => !(dedupFirst (lkvs.map (·.1))).contains k)).isEmpty then []
         else [pfx ++ ".levels missing: " ++
           pySetRepr (expected_levels.filter
             (fun k => !(dedupFirst (lkvs.map (·.1))).contains k))]) ++
        (if ((dedupFirst (lkvs.map (·.1))).filter
              (fun k => !expected_levels.contains k)).isEmpty then []
         else [pfx ++ ".levels has unexpected keys: " ++
           pySetRepr (sortStrings ((dedupFirst (lkvs.map (·.1))).filter
             (fun k => !expected_levels.contains k)))])) ∧
    validate_v1 twoDomainLevelsDoc =
      .ok ["domains.d1.levels missing: \x7b\x27level_5\x27\x7d",
           "domains.d2.levels has unexpected keys: \x7b\x27level_6\x27\x7d"] := by
  constructor
  · intro pfx dkvs lkvs hget
    unfold v1LevelErrors
    rw [hget]
    by_cases hss : sameKeySet (dedupFirst (lkvs.map (·.1))) = true
    · obtain ⟨hm, he⟩ := (sameKeySet_iff_filters _).mp hss
      simp only [hm, he]
      simp [hss]
    · simp [hss]
  · rfl

/-- C6 witness: a four-level domain mapping yields exactly the defect
naming `level_5` as missing. -/
theorem v1_level_set_exactness_witness :
    v1LevelErrors "d" [("levels", Yaml.map [("level_1", Yaml.null), ("level_2", Yaml.null),
      ("level_3", Yaml.null), ("level_4", Yaml.null)])] =
      ["d.levels missing: \x7b\x27level_5\x27\x7d"] := by
  have h := (v1_level_set_exactness).1 "d"
    [("levels", Yaml.map [("level_1", Yaml.null), ("level_2", Yaml.null),
      ("level_3", Yaml.null), ("level_4", Yaml.null)])]
    [("level_1", Yaml.null), ("level_2", Yaml.null),
      ("level_3", Yaml.null), ("level_4", Yaml.null)] rfl
  rw [h]
  rfl

/-! Claims C7 and C10: sorting machinery -/

theorem pySorted_of_all_isNum (l : List Yaml) (h : l.all isNum = true) :
    pySorted l = .ok (l.insertionSort numLe) := by
  cases l with
  | nil => rfl
  | cons a t =>
    cases t with
    | nil => rfl
    | cons b t2 =>
        show (if (a :: b :: t2).all isNum then
            Except.ok ((a :: b :: t2).insertionSort numLe)
          else if (a :: b :: t2).all Yaml.isStr then
            Except.ok ((a :: b :: t2).insertionSort strLeY)
          else .error "TypeError: \x27<\x27 not supported between mixed element types") = _
        rw [if_pos h]

theorem orderedInsert_int (n : Int) (l : List Int) :
    List.orderedInsert numLe (Yaml.int n) (l.map Yaml.int) =
      (List.orderedInsert (· ≤ ·) n l).map Yaml.int := by
  induction l with
  | nil => rfl
  | cons m t ih =>
      simp only [List.map, List.orderedInsert]
      by_cases hnm : n ≤ m
      · rw [if_pos (show numLe (Yaml.int n) (Yaml.int m) from hnm), if_pos hnm]
        rfl
      · rw [if_neg (show ¬ numLe (Yaml.int n) (Yaml.int m) from hnm), if_neg hnm]
        simp [ih]

theorem insertionSort_int (l : List Int) :
    (l.map Yaml.int).insertionSort numLe = (l.insertionSort (· ≤ ·)).map Yaml.int := by
  induction l with
  | nil => rfl
  | cons n t ih =>
      simp only [List.map, List.insertionSort, ih, orderedInsert_int]

theorem pyEqList_int (a b : List Int) :
    pyEqList (a.map Yaml.int) (b.map Yaml.int) = true ↔ a = b := by
  induction a generalizing b with
  | nil => cases b <;> simp [pyEqList]
  | cons n t ih =>
      cases b with
      | nil => simp [pyEqList]
      | cons m u => simp [pyEqList, pyEq, ih]

theorem sortInt_eq_iff_perm (l : List Int) :
    l.insertionSort (· ≤ ·) = [1, 2, 3, 4, 5] ↔ l.Perm [1, 2, 3, 4, 5] := by
  constructor
  · intro h
    exact h ▸ (List.perm_insertionSort _ l).symm
  · intro hp
    exact List.eq_of_perm_of_sorted ((List.perm_insertionSort _ l).trans hp)
      (List.sorted_insertionSort _ l) (by decide)

theorem all_isNum_map_int (l : List Int) : (l.map Yaml.int).all isNum = true := by
  induction l with
  | nil => rfl
  | cons n t ih => simp [isNum, ih]

theorem v2MaturityCheck_ints (dpre : String) (mls : List Yaml) (ns : List Int)
    (h : collectLevels mls = ns.map Yaml.int) :
    v2MaturityCheck dpre mls =
      .ok (if ns.Perm [1, 2, 3, 4, 5] then [] else [maturityMsg dpre]) := by
  have hred : v2MaturityCheck dpre mls =
      (if pyEqList ((ns.map Yaml.int).insertionSort numLe) oneToFive then Except.ok []
       else Except.ok [maturityMsg dpre]) := by
    unfold v2MaturityCheck
    rw [h, pySorted_of_all_isNum _ (all_isNum_map_int ns)]
    rfl
  rw [insertionSort_int] at hred
  by_cases hp : ns.Perm [1, 2, 3, 4, 5]
  · have hs : ns.insertionSort (· ≤ ·) = [1, 2, 3, 4, 5] := (sortInt_eq_iff_perm ns).mpr hp
    have hcond : pyEqList ((ns.insertionSort (· ≤ ·)).map Yaml.int) oneToFive = true := by
      rw [show oneToFive = ([1, 2, 3, 4, 5] : List Int).map Yaml.int from rfl]
      exact (pyEqList_int _ _).mpr hs
    rw [hred, hcond, if_pos hp]
    rfl
  · have hcond : pyEqList ((ns.insertionSort (· ≤ ·)).map Yaml.int) oneToFive = false := by
      rw [show oneToFive = ([1, 2, 3, 4, 5] : List Int).map Yaml.int from rfl]
      by_contra hc
      rw [Bool.not_eq_false] at hc
      exact hp ((sortInt_eq_iff_perm ns).mp ((pyEqList_int _ _).mp hc))
    rw [hred, hcond, if_neg hp]
    rfl

theorem map_levelOf_lvlEntry (ns : List Int) :
    (ns.map lvlEntry).map levelOf = ns.map Yaml.int := by
  induction ns with
  | nil => rfl
  | cons n t ih => simp only [List.map, ih]; rfl

theorem filter_isDict_lvlEntry (ns : List Int) :
    (ns.map lvlEntry).filter Yaml.isDict = ns.map lvlEntry := by
  induction ns with
  | nil => rfl
  | cons n t ih => simp only [List.map, List.filter, ih]; rfl

/-! Claim C7 (amended theorem) -/

/-- C7 amended.  For a `maturity_levels` list of mapping entries with
integer `level` values `ns`, the check passes exactly when `ns` is a
permutation of `[1,2,3,4,5]` (order-independent but multiset-exact:
duplicates are rejected even when the value *set* is `{1..5}`), and any
failure produces the single generic defect `maturityMsg`, which names no
missing or unexpected member. -/
theorem v2_maturity_multiset_semantics (dpre : String) (ns : List Int) :
    v2MaturityCheck dpre (ns.map lvlEntry) =
      .ok (if ns.Perm [1, 2, 3, 4, 5] then [] else [maturityMsg dpre]) := by
  apply v2MaturityCheck_ints
  unfold collectLevels
  rw [filter_isDict_lvlEntry, map_levelOf_lvlEntry]

/-! Claim C10 -/

/-- C10.  Non-mapping entries of a `maturity_levels` list are skipped when
collecting level values (collection only sees the mapping entries), so any
list whose mapping entries carry levels permuting `1..5` — with any number
of non-mapping entries anywhere among them — produces no defect. -/
theorem v2_nonmapping_level_entries_skipped (dpre : String) (mls : List Yaml) (ns : List Int)
    (hdict : mls.filter Yaml.isDict = ns.map lvlEntry)
    (hperm : ns.Perm [1, 2, 3, 4, 5]) :
    v2MaturityCheck dpre mls = .ok [] ∧
    collectLevels mls = collectLevels (mls.filter Yaml.isDict) := by
  constructor
  · have hc : collectLevels mls = ns.map Yaml.int := by
      unfold collectLevels
      rw [hdict, map_levelOf_lvlEntry]
    rw [v2MaturityCheck_ints dpre mls ns hc, if_pos hperm]
  · unfold collectLevels
    rw [List.filter_filter]
    simp

/-- C10 witness: five in-order level entries followed by a stray string and
a stray integer entry validate cleanly. -/
theorem v2_nonmapping_level_entries_skipped_witness :
    v2MaturityCheck "components[1].domains[1]"
      [lvlEntry 1, lvlEntry 2, lvlEntry 3, lvlEntry 4, lvlEntry 5,
       Yaml.str "junk", Yaml.int 7] = .ok [] :=
  (v2_nonmapping_level_entries_skipped "components[1].domains[1]"
    [lvlEntry 1, lvlEntry 2, lvlEntry 3, lvlEntry 4, lvlEntry 5,
     Yaml.str "junk", Yaml.int 7] [1, 2, 3, 4, 5] rfl (by decide)).1

/-! Claim C5 -/

theorem hasTab_iff (s : String) : hasTab s = true ↔ '\t' ∈ s.data := by
  simp [hasTab, List.elem_iff]

theorem tabLinesFrom_mem_gt : ∀ (l : List String) (i n : Nat),
    n ∈ tabLinesFrom i l → i < n := by
  intro l
  induction l with
  | nil => intro i n h; simp [tabLinesFrom] at h
  | cons s t ih =>
      intro i n h
      unfold tabLinesFrom at h
      by_cases hs : hasTab s = true
      · rw [if_pos hs] at h
        rcases List.mem_cons.mp h with h1 | h2
        · omega
        · have := ih (i + 1) n h2
          omega
      · rw [if_neg hs] at h
        have := ih (i + 1) n h
        omega

theorem tabLinesFrom_sorted : ∀ (l : List String) (i : Nat),
    (tabLinesFrom i l).Sorted (· < ·) := by
  intro l
  induction l with
  | nil => intro i; simp [tabLinesFrom]
  | cons s t ih =>
      intro i
      unfold tabLinesFrom
      by_cases hs : hasTab s = true
      · rw [if_pos hs]
        refine List.sorted_cons.mpr ⟨?_, ih (i + 1)⟩
        intro b hb
        exact tabLinesFrom_mem_gt t (i + 1) b hb
      · rw [if_neg hs]
        exact ih (i + 1)

theorem tabLinesFrom_mem_iff : ∀ (l : List String) (i n : Nat),
    n ∈ tabLinesFrom i l ↔
      ∃ k, ∃ hk : k < l.length, hasTab (l.get ⟨k, hk⟩) = true ∧ n = i + k + 1 := by
  intro l
  induction l with
  | nil => intro i n; simp [tabLinesFrom]
  | cons s t ih =>
      intro i n
      unfold tabLinesFrom
      by_cases hs : hasTab s = true
      · rw [if_pos hs]
        constructor
        · intro h
          rcases List.mem_cons.mp h with h1 | h2
          · exact ⟨0, by simp, by simpa using hs, by omega⟩
          · obtain ⟨k, hk, htab, hn⟩ := (ih (i + 1) n).mp h2
            refine ⟨k + 1, by simpa using Nat.succ_lt_succ hk, ?_, by omega⟩
            simpa using htab
        · rintro ⟨k, hk, htab, hn⟩
          cases k with
          | zero => subst hn; simp
          | succ k2 =>
              apply List.mem_cons.mpr
              right
              apply (ih (i + 1) n).mpr
              refine ⟨k2, by simpa using Nat.lt_of_succ_lt_succ hk, ?_, by omega⟩
              simpa using htab
      · rw [if_neg hs]
        constructor
        · intro h
          obtain ⟨k, hk, htab, hn⟩ := (ih (i + 1) n).mp h
          refine ⟨k + 1, by simpa using Nat.succ_lt_succ hk, ?_, by omega⟩
          simpa using htab
        · rintro ⟨k, hk, htab, hn⟩
          cases k with
          | zero => exact absurd (by simpa using htab) hs
          | succ k2 =>
              apply (ih (i + 1) n).mpr
              refine ⟨k2, by simpa using Nat.lt_of_succ_lt_succ hk, ?_, by omega⟩
              simpa using htab

set_option maxHeartbeats 1600000 in
theorem splitlinesAux_tab : ∀ (acc cs : List Char), ('\t' ∈ cs ∨ '\t' ∈ acc) →
    ∃ s ∈ pySplitlinesAux acc cs, '\t' ∈ s.data := by
  intro acc cs
  induction acc, cs using pySplitlinesAux.induct with
  | case1 acc hacc =>
      intro h
      rw [List.isEmpty_iff] at hacc
      subst hacc
      simp at h
  | case2 acc hacc =>
      intro h
      have htab : '\t' ∈ acc := h.resolve_left (by simp)
      rw [pySplitlinesAux.eq_1, if_neg hacc]
      exact ⟨⟨acc.reverse⟩, by simp, by simpa using htab⟩
  | case3 acc cs2 ih =>
      intro h
      rw [pySplitlinesAux.eq_2]
      rcases h with hcs | hacc2
      · have h3 : '\t' ∈ cs2 := by
          rcases List.mem_cons.mp hcs with h1 | h1
          · exact absurd h1 (by decide)
          · rcases List.mem_cons.mp h1 with h2 | h2
            · exact absurd h2 (by decide)
            · exact h2
        obtain ⟨s, hs, ht⟩ := ih (Or.inl h3)
        exact ⟨s, List.mem_cons_of_mem _ hs, ht⟩
      · exact ⟨String.mk acc.reverse, List.mem_cons_self _ _, by simpa using hacc2⟩
  | case4 acc c cs hno hbr ih =>
      intro h
      rw [pySplitlinesAux.eq_3 _ _ _ hno, if_pos hbr]
      have hct : c ≠ '\t' := by
        intro hc
        subst hc
        exact absurd hbr (by decide)
      rcases h with hcs | hacc2
      · have h3 : '\t' ∈ cs := by
          rcases List.mem_cons.mp hcs with h1 | h1
          · exact absurd h1.symm hct
          · exact h1
        obtain ⟨s, hs, ht⟩ := ih (Or.inl h3)
        exact ⟨s, List.mem_cons_of_mem _ hs, ht⟩
      · exact ⟨String.mk acc.reverse, List.mem_cons_self _ _, by simpa using hacc2⟩
  | case5 acc c cs hno hbr ih =>
      intro h
      rw [pySplitlinesAux.eq_3 _ _ _ hno, if_neg hbr]
      apply ih
      rcases h with hcs | hacc2
      · rcases List.mem_cons.mp hcs with h1 | h1
        · exact Or.inr (h1 ▸ List.mem_cons_self _ _)
        · exact Or.inl h1
      · exact Or.inr (List.mem_cons_of_mem _ hacc2)

theorem tabLinesFrom_ne_nil : ∀ (l : List String) (i : Nat),
    (∃ s ∈ l, '\t' ∈ s.data) → tabLinesFrom i l ≠ [] := by
  intro l
  induction l with
  | nil => intro i h; simp at h
  | cons s t ih =>
      rintro i ⟨s0, hs0, ht0⟩
      unfold tabLinesFrom
      rcases List.mem_cons.mp hs0 with rfl | hmem
      · rw [if_pos ((hasTab_iff s0).mpr ht0)]
        simp
      · by_cases hs : hasTab s = true
        · rw [if_pos hs]
          simp
        · rw [if_neg hs]
          exact ih (i + 1) ⟨s0, hmem, ht0⟩

/-- C5.  Any text containing a tab character makes `load_yaml` fail with
the tab-contamination error whatever parser is supplied (so the text never
reaches the parser), and the reported line numbers are nonempty, strictly
sorted, 1-based, and exactly the lines whose content contains a tab. -/
theorem load_yaml_tab_rejection (p q : String → Except String Yaml) (text : String)
    (h : hasTab text = true) :
    load_yaml p text = .error (tabErrorMsg (tabLines text)) ∧
    load_yaml p text = load_yaml q text ∧
    tabLines text ≠ [] ∧
    (tabLines text).Sorted (· < ·) ∧
    (∀ n, n ∈ tabLines text ↔
      ∃ k, ∃ hk : k < (pySplitlines text).length,
        hasTab ((pySplitlines text).get ⟨k, hk⟩) = true ∧ n = k + 1) := by
  refine ⟨?_, ?_, ?_, ?_, ?_⟩
  · unfold load_yaml
    rw [if_pos h]
  · unfold load_yaml
    rw [if_pos h, if_pos h]
  · exact tabLinesFrom_ne_nil _ 0 (splitlinesAux_tab [] text.data
      (Or.inl ((hasTab_iff text).mp h)))
  · exact tabLinesFrom_sorted _ 0
  · intro n
    have := tabLinesFrom_mem_iff (pySplitlines text) 0 n
    simpa using this

/-- C5 witness: text with a tab on line 2 is rejected with that line
number, for a parser that would otherwise accept it. -/
theorem load_yaml_tab_rejection_witness :
    load_yaml (fun _ => Except.ok Yaml.null) "a\n\tb" = .error (tabErrorMsg [2]) ∧
    tabLines "a\n\tb" = [2] := by
  have h := (load_yaml_tab_rejection (fun _ => Except.ok Yaml.null)
    (fun _ => Except.ok Yaml.null) "a\n\tb" rfl).1
  have ht : tabLines "a\n\tb" = [2] := rfl
  exact ⟨ht ▸ h, ht⟩
